import Mathlib

/-
Shallow embedding of the timer-manager repository (src/timer-manager.py).

The Python module defines a class `Timer` with attributes `target_time`
(optional float), `start_time` (optional float), `time_spend` (float) and
`call_back` (optional callable), and a class `Timer_Manager` holding an
insertion-ordered dictionary of named timers.

Modelling choices:
  - Durations and instants are rationals; each method that reads the wall
    clock (`time.time()`) takes the current instant `now : Rat` as an
    explicit parameter (the operations are instantaneous, so every clock
    read inside one call returns the same `now`).
  - The callback is modelled by a Bool recording whether a callable is
    attached; operations that may invoke it return a Bool flag saying
    whether the callback was invoked.
  - A Python exception is modelled with `Except`: the error value is
    returned and the receiver object is left unchanged (as in the source,
    which raises before mutating).
  - The dictionary backing `Timer_Manager` is an insertion-ordered
    association list; `any(map(f, values))` evaluates `f` on the values in
    insertion order and an exception raised by `f` aborts the iteration,
    which the embedding renders by returning the already-mutated prefix
    together with an error flag.
-/

namespace TimerManagerPy

/-- State of a Python `Timer` object: the four attributes set by
`Timer.__init__` (with `call_back` abstracted to whether a callable is
attached). -/
structure Timer where
  target_time : Option Rat
  start_time : Option Rat
  time_spend : Rat
  call_back : Bool
deriving DecidableEq, Repr

/-- `Timer.__init__(activation_time, call_back)`: `target_time` is set to the
given activation time, `start_time` to `None`, `time_spend` to `0.0`. -/
def Timer.make (activation_time : Option Rat) (call_back : Bool) : Timer :=
  { target_time := activation_time
    start_time := none
    time_spend := 0
    call_back := call_back }

/-- A timer is running exactly when `start_time` is not `None`. -/
def Timer.running (t : Timer) : Bool :=
  t.start_time.isSome

/-- `Timer.get_time_spend`: returns `time_spend` when `start_time is None`,
otherwise `time_spend + time.time() - start_time`. -/
def Timer.get_time_spend (t : Timer) (now : Rat) : Rat :=
  match t.start_time with
  | none => t.time_spend
  | some s => t.time_spend + now - s

/-- `Timer.start`: records the current instant in `start_time` when
`start_time is None`, otherwise does nothing. -/
def Timer.start (t : Timer) (now : Rat) : Timer :=
  match t.start_time with
  | none => { t with start_time := some now }
  | some _ => t

/-- The error raised by `Timer.stop` on a non-running timer
(`ValueError("Timer is not running.")`). -/
inductive StopError where
  | notRunning
deriving DecidableEq, Repr

/-- `Timer.stop`: when `start_time is not None`, banks
`get_time_spend()` into `time_spend` and clears `start_time`; otherwise
raises `ValueError`. -/
def Timer.stop (t : Timer) (now : Rat) : Except StopError Timer :=
  match t.start_time with
  | some _ => .ok { t with time_spend := t.get_time_spend now, start_time := none }
  | none => .error .notRunning

/-- `Timer.reset`: clears `start_time` to `None` and `time_spend` to `0.0`,
unconditionally. -/
def Timer.reset (t : Timer) : Timer :=
  { t with start_time := none, time_spend := 0 }

/-- `Timer.is_activated(reset)`: the guard is
`if self.target_time and self.get_time_spend() >= self.target_time`, where
the first conjunct is Python truthiness of the optional float (`None` and
`0.0` are falsy). When the guard holds and `reset` is set, the timer is
reset and immediately restarted; the method returns `True` exactly when the
guard holds. Result: (updated timer state, returned Bool). -/
def Timer.is_activated (t : Timer) (now : Rat) (reset : Bool) : Timer × Bool :=
  match t.target_time with
  | none => (t, false)
  | some target =>
    if target ≠ 0 ∧ t.get_time_spend now ≥ target then
      (if reset then (t.reset).start now else t, true)
    else
      (t, false)

/-- `Timer.update`: calls `is_activated()` (with `reset` defaulted to
`False`); when it returns `True` and `call_back` is callable, invokes the
callback. Result: (updated timer state, whether the callback was invoked). -/
def Timer.update (t : Timer) (now : Rat) : Timer × Bool :=
  let r := t.is_activated now false
  if r.2 ∧ r.1.call_back then (r.1, true) else (r.1, false)

/-- The backing dictionary of a `Timer_Manager`: an insertion-ordered
association list from names to timers. -/
abbrev Timer_Manager := List (String × Timer)

/-- The error raised by `Timer_Manager.__getattr__` and
`Timer_Manager.__delattr__` on an unknown name
(`AttributeError("Timer ... does not exist.")`). -/
inductive RegError where
  | notFound
deriving DecidableEq, Repr

/-- `Timer_Manager.__getattr__(name)`: looks the name up in the backing
dictionary and returns the timer when present (a `Timer` object is always
truthy), otherwise raises `AttributeError`. -/
def Timer_Manager.getTimer : Timer_Manager → String → Except RegError Timer
  | [], _ => .error .notFound
  | (k, t) :: rest, name =>
    if k = name then .ok t else Timer_Manager.getTimer rest name

/-- `Timer_Manager.__setattr__(name, value)` with a `Timer` value: inserts or
replaces the entry under the name (dictionary assignment keeps the original
position on replacement and appends on fresh insertion). -/
def Timer_Manager.setTimer : Timer_Manager → String → Timer → Timer_Manager
  | [], name, v => [(name, v)]
  | (k, t) :: rest, name, v =>
    if k = name then (k, v) :: rest
    else (k, t) :: Timer_Manager.setTimer rest name v

/-- `Timer_Manager.__delattr__(name)`: deletes the entry when the name is
present, otherwise raises `AttributeError`. -/
def Timer_Manager.delTimer : Timer_Manager → String → Except RegError Timer_Manager
  | [], _ => .error .notFound
  | (k, t) :: rest, name =>
    if k = name then .ok rest
    else
      match Timer_Manager.delTimer rest name with
      | .ok rest2 => .ok ((k, t) :: rest2)
      | .error e => .error e

/-- `Timer_Manager.stop_all`: `any(map(lambda x: x.stop(), values))` calls
`stop` on the member timers in insertion order; `stop` returns `None`
(falsy), so `any` consumes the whole iterator unless a call raises, in
which case the exception propagates and the remaining timers are not
touched. Result: (registry state after the call, whether an exception
escaped). -/
def Timer_Manager.stop_all : Timer_Manager → Rat → Timer_Manager × Bool
  | [], _ => ([], false)
  | (k, t) :: rest, now =>
    match t.stop now with
    | .ok t2 =>
      let r := Timer_Manager.stop_all rest now
      ((k, t2) :: r.1, r.2)
    | .error _ => ((k, t) :: rest, true)

/-! Unfolding equations for the Timer operations, keyed on the optional
fields. -/

/-- Unfolds `is_activated` when the target is unset. -/
lemma is_activated_none (t : Timer) (now : Rat) (reset : Bool)
    (h : t.target_time = none) :
    t.is_activated now reset = (t, false) := by
  unfold Timer.is_activated
  rw [h]

/-- Unfolds `is_activated` when the target is set. -/
lemma is_activated_some (t : Timer) (now : Rat) (reset : Bool) (d : Rat)
    (h : t.target_time = some d) :
    t.is_activated now reset =
      if d ≠ 0 ∧ t.get_time_spend now ≥ d then
        (if reset then (t.reset).start now else t, true)
      else (t, false) := by
  unfold Timer.is_activated
  rw [h]

/-- Unfolds `get_time_spend` on a stopped timer. -/
lemma get_time_spend_none (t : Timer) (now : Rat) (h : t.start_time = none) :
    t.get_time_spend now = t.time_spend := by
  unfold Timer.get_time_spend
  rw [h]

/-- Unfolds `get_time_spend` on a running timer. -/
lemma get_time_spend_some (t : Timer) (now : Rat) (s : Rat)
    (h : t.start_time = some s) :
    t.get_time_spend now = t.time_spend + now - s := by
  unfold Timer.get_time_spend
  rw [h]

/-- Unfolds `start` on a stopped timer. -/
lemma start_none (t : Timer) (now : Rat) (h : t.start_time = none) :
    t.start now = { t with start_time := some now } := by
  unfold Timer.start
  rw [h]

/-- Unfolds `start` on a running timer. -/
lemma start_some (t : Timer) (now : Rat) (s : Rat) (h : t.start_time = some s) :
    t.start now = t := by
  unfold Timer.start
  rw [h]

/-- Unfolds `stop` on a running timer. -/
lemma stop_some (t : Timer) (now : Rat) (s : Rat) (h : t.start_time = some s) :
    t.stop now =
      Except.ok { t with time_spend := t.get_time_spend now, start_time := none } := by
  unfold Timer.stop
  rw [h]

/-- Unfolds `stop` on a stopped timer. -/
lemma stop_none (t : Timer) (now : Rat) (h : t.start_time = none) :
    t.stop now = Except.error StopError.notRunning := by
  unfold Timer.stop
  rw [h]

/-! Helper lemmas shared by the claim theorems. -/

/-- A query call `is_activated(reset=False)` leaves the timer state
unchanged. -/
lemma is_activated_query_state (t : Timer) (now : Rat) :
    (t.is_activated now false).1 = t := by
  rcases h : t.target_time with _ | d
  · rw [is_activated_none t now false h]
  · rw [is_activated_some t now false d h]
    split <;> simp

/-- Characterisation of the Bool returned by `is_activated(reset=False)`:
true exactly when the target is a set nonzero value not exceeding the
elapsed time. -/
lemma is_activated_query_iff (t : Timer) (now : Rat) :
    (t.is_activated now false).2 = true ↔
      ∃ d, t.target_time = some d ∧ d ≠ 0 ∧ d ≤ t.get_time_spend now := by
  rcases h : t.target_time with _ | d
  · rw [is_activated_none t now false h]
    simp [h]
  · rw [is_activated_some t now false d h]
    split <;> rename_i hc
    · exact ⟨fun _ => ⟨d, rfl, hc.1, hc.2⟩, fun _ => rfl⟩
    · constructor
      · intro hf
        exact absurd hf Bool.false_ne_true
      · rintro ⟨d2, hd2, hne2, hle2⟩
        injection hd2 with hd2
        subst hd2
        exact absurd ⟨hne2, hle2⟩ hc

/-- The Bool returned by `is_activated` does not depend on the `reset`
argument. -/
lemma is_activated_snd_reset (t : Timer) (now : Rat) (reset : Bool) :
    (t.is_activated now reset).2 = (t.is_activated now false).2 := by
  rcases h : t.target_time with _ | d
  · rw [is_activated_none t now reset h, is_activated_none t now false h]
  · rw [is_activated_some t now reset d h, is_activated_some t now false d h]
    split <;> rfl

/-- Elapsed time is monotone in the clock. -/
lemma get_time_spend_mono (t : Timer) {n1 n2 : Rat} (h : n1 ≤ n2) :
    t.get_time_spend n1 ≤ t.get_time_spend n2 := by
  rcases hs : t.start_time with _ | s
  · rw [get_time_spend_none t n1 hs, get_time_spend_none t n2 hs]
  · rw [get_time_spend_some t n1 s hs, get_time_spend_some t n2 s hs]
    linarith

/-! Claim theorems for the Timer component. -/

/-- C2 counterexample: the claim says `is_activated(False)` returns true
if and only if `target_time` is set and the elapsed time has reached it.
For a timer constructed with `activation_time = 0.0` the target is set and
the elapsed time (0) has reached it, yet the method returns false, because
the guard tests the target for truthiness and `0.0` is falsy. -/
theorem C2_counterexample :
    (Timer.make (some 0) false).target_time = some 0 ∧
    (Timer.make (some 0) false).get_time_spend 5 ≥ 0 ∧
    ((Timer.make (some 0) false).is_activated 5 false).2 = false := by
  refine ⟨rfl, ?_, ?_⟩
  · rw [get_time_spend_none (Timer.make (some 0) false) 5 rfl]
    exact le_rfl
  · rw [is_activated_some (Timer.make (some 0) false) 5 false 0 rfl]
    simp

/-- C2 (amended): `is_activated(False)` returns true iff `target_time` is
set to a nonzero value and the elapsed time has reached it; it always
returns false when `target_time` is unset; it has no side effect on the
timer state; and repeated calls at later instants keep returning true. -/
theorem C2_is_activated_query (t : Timer) (now : Rat) :
    ((t.is_activated now false).2 = true ↔
      ∃ d, t.target_time = some d ∧ d ≠ 0 ∧ d ≤ t.get_time_spend now) ∧
    (t.is_activated now false).1 = t ∧
    (t.target_time = none → (t.is_activated now false).2 = false) ∧
    (∀ n2, now ≤ n2 → (t.is_activated now false).2 = true →
      (t.is_activated n2 false).2 = true) := by
  refine ⟨is_activated_query_iff t now, is_activated_query_state t now, ?_, ?_⟩
  · intro h
    rw [is_activated_none t now false h]
  · intro n2 hle h
    obtain ⟨d, hd, hne, hge⟩ := (is_activated_query_iff t now).1 h
    exact (is_activated_query_iff t n2).2
      ⟨d, hd, hne, le_trans hge (get_time_spend_mono t hle)⟩

/-- C2 witness: evaluates the amended theorem at a concrete timer. -/
theorem C2_witness :
    ((Timer.make (some 1) false).is_activated 3 false).1 =
      Timer.make (some 1) false :=
  (C2_is_activated_query (Timer.make (some 1) false) 3).2.1

/-- C3: `stop()` on a running timer banks `now - start_time` into
`time_spend` and clears `start_time`, so the result is not running;
`stop()` on a non-running timer raises `ValueError` (the state is returned
unchanged to the caller, as the source raises before mutating). -/
theorem C3_stop_spec (t : Timer) (now : Rat) :
    (∀ s, t.start_time = some s →
      t.stop now = Except.ok
        { target_time := t.target_time, start_time := none,
          time_spend := t.time_spend + (now - s), call_back := t.call_back }) ∧
    (∀ t2, t.stop now = Except.ok t2 → t2.running = false) ∧
    (t.start_time = none → t.stop now = Except.error StopError.notRunning) := by
  refine ⟨?_, ?_, ?_⟩
  · intro s hs
    rw [stop_some t now s hs, get_time_spend_some t now s hs]
    have harith : t.time_spend + now - s = t.time_spend + (now - s) := by ring
    rw [harith]
  · intro t2 h2
    rcases hs : t.start_time with _ | s
    · rw [stop_none t now hs] at h2
      cases h2
    · rw [stop_some t now s hs] at h2
      injection h2 with h2
      rw [← h2]
      rfl
  · intro hs
    exact stop_none t now hs

/-- C3 witness: evaluates the theorem on a timer started at 0 and stopped
at 2, and on a freshly constructed (never started) timer. -/
theorem C3_witness :
    ((Timer.make none false).start 0).stop 2 = Except.ok
      { target_time := none, start_time := none,
        time_spend := 0 + (2 - 0), call_back := false } ∧
    (Timer.make none false).stop 2 = Except.error StopError.notRunning :=
  ⟨(C3_stop_spec ((Timer.make none false).start 0) 2).1 0 rfl,
   (C3_stop_spec (Timer.make none false) 2).2.2 rfl⟩

/-- C4: `get_time_spend` (a pure query in this embedding: it returns a
value and cannot mutate the state) yields `time_spend + (now - start_time)`
while running, exactly `time_spend` while stopped, and 0 on a freshly
constructed timer. -/
theorem C4_get_time_spend_spec (t : Timer) (now : Rat) :
    (∀ s, t.start_time = some s →
      t.get_time_spend now = t.time_spend + (now - s)) ∧
    (t.start_time = none → t.get_time_spend now = t.time_spend) ∧
    (∀ tgt cb m, (Timer.make tgt cb).get_time_spend m = 0) := by
  refine ⟨?_, ?_, ?_⟩
  · intro s hs
    rw [get_time_spend_some t now s hs]
    ring
  · intro hs
    exact get_time_spend_none t now hs
  · intro tgt cb m
    rfl

/-- C4 witness: evaluates the theorem on a fresh (stopped) timer. -/
theorem C4_witness :
    (Timer.make none false).get_time_spend 7 = (Timer.make none false).time_spend :=
  (C4_get_time_spend_spec (Timer.make none false) 7).2.1 rfl

/-- C5: on a timer observed activated, `is_activated(reset=True)` returns
true, the elapsed time of the resulting state is zero at that instant, and
the resulting state is running. -/
theorem C5_reset_on_activation (t : Timer) (now : Rat)
    (h : (t.is_activated now false).2 = true) :
    (t.is_activated now true).2 = true ∧
    ((t.is_activated now true).1).get_time_spend now = 0 ∧
    ((t.is_activated now true).1).running = true := by
  obtain ⟨d, hd, hne, hge⟩ := (is_activated_query_iff t now).1 h
  have hcond : d ≠ 0 ∧ t.get_time_spend now ≥ d := ⟨hne, hge⟩
  have hres : t.is_activated now true = ((t.reset).start now, true) := by
    rw [is_activated_some t now true d hd, if_pos hcond]
    simp
  have hstate : (t.reset).start now =
      { target_time := t.target_time, start_time := some now,
        time_spend := 0, call_back := t.call_back } := rfl
  refine ⟨?_, ?_, ?_⟩
  · rw [hres]
  · rw [hres, hstate]
    rw [get_time_spend_some _ now now rfl]
    show (0 : Rat) + now - now = 0
    ring
  · rw [hres, hstate]
    rfl

/-- C5 witness: a timer with target 1 started at instant 0 and observed at
instant 2 is activated; the theorem applies to it. -/
theorem C5_witness :
    ((((Timer.make (some 1) false).start 0)).is_activated 2 true).2 = true ∧
    (((((Timer.make (some 1) false).start 0)).is_activated 2 true).1).get_time_spend 2 = 0 ∧
    (((((Timer.make (some 1) false).start 0)).is_activated 2 true).1).running = true :=
  C5_reset_on_activation ((Timer.make (some 1) false).start 0) 2 (by
    refine (is_activated_query_iff ((Timer.make (some 1) false).start 0) 2).2
      ⟨1, rfl, by norm_num, ?_⟩
    rw [get_time_spend_some ((Timer.make (some 1) false).start 0) 2 0 rfl]
    show (1 : Rat) ≤ 0 + 2 - 0
    norm_num)

/-- C6: `update` returns the timer state unchanged in every field
(target, start instant, banked time and callback), and it invokes the
callback exactly when `is_activated(False)` is true and a callable
callback is set. -/
theorem C6_update_frame (t : Timer) (now : Rat) :
    (t.update now).1 = t ∧
    ((t.update now).2 = true ↔
      ((t.is_activated now false).2 = true ∧ t.call_back = true)) := by
  have hst := is_activated_query_state t now
  have hupd : t.update now =
      if (t.is_activated now false).2 = true ∧ t.call_back = true
      then (t, true) else (t, false) := by
    simp only [Timer.update, hst]
  constructor
  · rw [hupd]
    split <;> rfl
  · rw [hupd]
    split <;> rename_i hc
    · exact ⟨fun _ => hc, fun _ => rfl⟩
    · exact ⟨fun hf => absurd hf Bool.false_ne_true, fun ha => absurd ha hc⟩

/-- C7: starting an already-started timer is a no-op: a second `start`
call without an intervening `stop` leaves the state (including
`start_time`, hence the elapsed time) exactly as the first call left it,
and `start` on a running timer changes nothing. `start` is total, so it
never fails. -/
theorem C7_start_idempotent (t : Timer) (n1 n2 : Rat) :
    (t.start n1).start n2 = t.start n1 ∧
    (t.running = true → t.start n1 = t) := by
  constructor
  · rcases hs : t.start_time with _ | s
    · rw [start_none t n1 hs, start_some _ n2 n1 rfl]
    · rw [start_some t n1 s hs, start_some t n2 s hs]
  · intro h
    rcases hs : t.start_time with _ | s
    · rw [Timer.running, hs] at h
      cases h
    · exact start_some t n1 s hs

/-- C7 witness: evaluates the theorem on a timer already started at 0. -/
theorem C7_witness :
    ((Timer.make none false).start 0).start 5 = (Timer.make none false).start 0 :=
  (C7_start_idempotent ((Timer.make none false).start 0) 5 7).2 rfl

/-- C8: `reset` is total (never fails), sets `time_spend` to 0 and clears
`start_time` (so the timer is not running) while keeping the target and
the callback, without banking any in-progress interval, and the subsequent
elapsed-time query returns 0. -/
theorem C8_reset_spec (t : Timer) (now : Rat) :
    t.reset = { target_time := t.target_time, start_time := none,
                time_spend := 0, call_back := t.call_back } ∧
    t.reset.running = false ∧
    t.reset.get_time_spend now = 0 :=
  ⟨rfl, rfl, rfl⟩

/-- C10: a timer whose `target_time` is the set value 0 is never reported
activated, with either value of the reset flag and at any instant, and its
state is never changed by the query, because the guard tests `target_time`
for truthiness and `0.0` is falsy; hence `update` never invokes its
callback for such a timer. -/
theorem C10_zero_target (t : Timer) (h : t.target_time = some 0)
    (now : Rat) (reset : Bool) :
    t.is_activated now reset = (t, false) ∧ t.update now = (t, false) := by
  have hact : ∀ r : Bool, t.is_activated now r = (t, false) := by
    intro r
    rw [is_activated_some t now r 0 h, if_neg]
    intro hc
    exact hc.1 rfl
  refine ⟨hact reset, ?_⟩
  simp [Timer.update, hact false]

/-- C10 witness: evaluates the theorem on a timer constructed with
activation time 0 and a callback attached. -/
theorem C10_witness :
    (Timer.make (some 0) true).is_activated 9 true = (Timer.make (some 0) true, false) ∧
    (Timer.make (some 0) true).update 9 = (Timer.make (some 0) true, false) :=
  C10_zero_target (Timer.make (some 0) true) rfl 9 true

/-! Claim theorems for the Timer_Manager component. -/

/-- The state of a member entry after a successful `stop` at the given
instant (the ok branch of `Timer.stop`). -/
def stopEntry (now : Rat) (p : String × Timer) : String × Timer :=
  (p.1, { p.2 with time_spend := p.2.get_time_spend now, start_time := none })

/-- C1 counterexample: for a registry holding a stopped timer under "a"
followed by a running timer under "b", `stop_all` hits the ValueError on
"a", the exception escapes (second component true), and the whole registry
is left unchanged, so the running timer "b" is still running: the failure
is not silently ignored and not every running member gets stopped. -/
theorem C1_counterexample :
    Timer_Manager.stop_all
        [("a", Timer.make none false), ("b", (Timer.make none false).start 0)] 1 =
      ([("a", Timer.make none false), ("b", (Timer.make none false).start 0)], true) ∧
    ((Timer.make none false).start 0).running = true :=
  ⟨rfl, rfl⟩

/-- C1 (amended): `stop_all` stops the member timers in insertion order up
to the first non-running one; members before it are stopped, it and every
later member are left untouched, and the per-timer ValueError escapes to
the caller (flag true) exactly when some member is not running. Only when
every member is running does the batch stop them all without failure. -/
theorem C1_stop_all_spec (m : Timer_Manager) (now : Rat) :
    Timer_Manager.stop_all m now =
      ((m.takeWhile fun p => p.2.running).map (stopEntry now)
          ++ m.dropWhile (fun p => p.2.running),
       !(m.all fun p => p.2.running)) := by
  induction m with
  | nil => rfl
  | cons p rest ih =>
    obtain ⟨k, t⟩ := p
    rcases hs : t.start_time with _ | s
    · have hrun : t.running = false := by
        rw [Timer.running, hs]
        rfl
      simp only [Timer_Manager.stop_all, stop_none t now hs,
        List.takeWhile_cons, List.dropWhile_cons, List.all_cons, hrun]
      simp
    · have hrun : t.running = true := by
        rw [Timer.running, hs]
        rfl
      simp only [Timer_Manager.stop_all, stop_some t now s hs,
        List.takeWhile_cons, List.dropWhile_cons, List.all_cons, hrun, ih]
      simp [stopEntry]

/-- Lookup of an absent name fails with AttributeError. -/
lemma getTimer_not_mem (m : Timer_Manager) (name : String)
    (h : name ∉ m.map Prod.fst) :
    Timer_Manager.getTimer m name = Except.error RegError.notFound := by
  induction m with
  | nil => rfl
  | cons p rest ih =>
    obtain ⟨k, t⟩ := p
    simp only [List.map_cons, List.mem_cons] at h
    push_neg at h
    simp only [Timer_Manager.getTimer]
    rw [if_neg fun hk => h.1 hk.symm]
    exact ih h.2

/-- Deletion of an absent name fails with AttributeError. -/
lemma delTimer_not_mem (m : Timer_Manager) (name : String)
    (h : name ∉ m.map Prod.fst) :
    Timer_Manager.delTimer m name = Except.error RegError.notFound := by
  induction m with
  | nil => rfl
  | cons p rest ih =>
    obtain ⟨k, t⟩ := p
    simp only [List.map_cons, List.mem_cons] at h
    push_neg at h
    simp only [Timer_Manager.delTimer]
    rw [if_neg fun hk => h.1 hk.symm, ih h.2]

/-- Lookup after insertion returns the inserted timer. -/
lemma getTimer_setTimer (m : Timer_Manager) (name : String) (v : Timer) :
    Timer_Manager.getTimer (Timer_Manager.setTimer m name v) name =
      Except.ok v := by
  induction m with
  | nil => simp [Timer_Manager.setTimer, Timer_Manager.getTimer]
  | cons p rest ih =>
    obtain ⟨k, t⟩ := p
    by_cases hk : k = name
    · simp [Timer_Manager.setTimer, Timer_Manager.getTimer, hk]
    · simp only [Timer_Manager.setTimer, if_neg hk]
      simp only [Timer_Manager.getTimer, if_neg hk]
      exact ih

/-- Lookup after deletion fails, provided the backing dictionary has
unique keys (which Python dictionaries guarantee). -/
lemma getTimer_delTimer (m : Timer_Manager) (name : String)
    (hnd : (m.map Prod.fst).Nodup) (m2 : Timer_Manager)
    (h : Timer_Manager.delTimer m name = Except.ok m2) :
    Timer_Manager.getTimer m2 name = Except.error RegError.notFound := by
  induction m generalizing m2 with
  | nil => cases h
  | cons p rest ih =>
    obtain ⟨k, t⟩ := p
    simp only [List.map_cons, List.nodup_cons] at hnd
    by_cases hk : k = name
    · simp only [Timer_Manager.delTimer, if_pos hk] at h
      injection h with h
      subst h
      apply getTimer_not_mem
      rw [← hk]
      exact hnd.1
    · simp only [Timer_Manager.delTimer, if_neg hk] at h
      rcases hdel : Timer_Manager.delTimer rest name with e | rest2
      · rw [hdel] at h
        cases h
      · rw [hdel] at h
        injection h with h
        subst h
        simp only [Timer_Manager.getTimer]
        rw [if_neg hk]
        exact ih hnd.2 rest2 hdel

/-- C9: after inserting a timer under a name, looking that name up returns
the inserted timer; lookup and deletion of an absent name fail with
AttributeError (leaving the registry unchanged, since the source raises
before mutating); and after a successful deletion the deleted name no
longer resolves (given the unique-key invariant of the backing
dictionary). -/
theorem C9_registry_spec (m : Timer_Manager) (name : String) (v : Timer) :
    Timer_Manager.getTimer (Timer_Manager.setTimer m name v) name = Except.ok v ∧
    (name ∉ m.map Prod.fst →
      Timer_Manager.getTimer m name = Except.error RegError.notFound ∧
      Timer_Manager.delTimer m name = Except.error RegError.notFound) ∧
    ((m.map Prod.fst).Nodup →
      ∀ m2, Timer_Manager.delTimer m name = Except.ok m2 →
        Timer_Manager.getTimer m2 name = Except.error RegError.notFound) :=
  ⟨getTimer_setTimer m name v,
   fun h => ⟨getTimer_not_mem m name h, delTimer_not_mem m name h⟩,
   fun hnd m2 h => getTimer_delTimer m name hnd m2 h⟩

/-- C9 witness: evaluates the theorem on a one-entry registry. -/
theorem C9_witness :
    Timer_Manager.getTimer (Timer_Manager.setTimer [] "a" (Timer.make none false)) "a" =
      Except.ok (Timer.make none false) ∧
    Timer_Manager.getTimer [("a", Timer.make none false)] "b" =
      Except.error RegError.notFound ∧
    Timer_Manager.getTimer [] "a" = Except.error RegError.notFound :=
  ⟨(C9_registry_spec [] "a" (Timer.make none false)).1,
   ((C9_registry_spec [("a", Timer.make none false)] "b" (Timer.make none false)).2.1
      (by decide)).1,
   (C9_registry_spec [("a", Timer.make none false)] "a" (Timer.make none false)).2.2
      (by decide) [] rfl⟩

end TimerManagerPy
